import Mathlib

/-!
Shallow embedding of the shrub UI example (src/example.cpp, src/web_gl.h).

Modelling conventions:
* C arrays live in flat wasm memory; each per-node array of the
  structure-of-arrays ElementTree is modelled as a total map `Int → α`,
  so that out-of-bounds writes are visible as writes beyond the valid
  region instead of being silently dropped.
* `f32`/`f64` scalar values are modelled as `ℚ`; every operation the
  claims touch is addition/comparison on exactly representable values.
* GL calls are modelled through an oracle (`GLOracle`) supplying the
  results of fenceSync / clientWaitSync, and through logs of the
  observable effects (staging-buffer uploads, draw calls, console
  messages).
-/

namespace Shrub

/-- GLenum constant from web_gl.h. -/
def GL_ALREADY_SIGNALED : ℕ := 0x911A

/-- GLenum constant from web_gl.h. -/
def GL_TIMEOUT_EXPIRED : ℕ := 0x911B

/-- GLenum constant from web_gl.h. -/
def GL_CONDITION_SATISFIED : ℕ := 0x911C

/-- GLenum constant from web_gl.h. -/
def GL_WAIT_FAILED : ℕ := 0x911D

/-- GLenum constant from web_gl.h. -/
def GL_SYNC_GPU_COMMANDS_COMPLETE : ℕ := 0x9117

/-- oak::Vec2, components are f32 (modelled as ℚ). Zero-initialised by default. -/
structure Vec2 where
  x : ℚ := 0
  y : ℚ := 0
deriving DecidableEq

instance : Add Vec2 := ⟨fun a b => ⟨a.x + b.x, a.y + b.y⟩⟩

theorem Vec2.add_def (a b : Vec2) : a + b = ⟨a.x + b.x, a.y + b.y⟩ := rfl

/-- oak::Vec4, components are f32 (modelled as ℚ). -/
structure Vec4 where
  x : ℚ := 0
  y : ℚ := 0
  z : ℚ := 0
  w : ℚ := 0
deriving DecidableEq

/-- `struct ElementIndex { i32 index = 0; }` — note the default member
initialiser is 0, not -1. -/
structure ElementIndex where
  index : Int := 0
deriving DecidableEq

/-- `struct ElementId { u64 id = 0; }`. -/
structure ElementId where
  id : ℕ := 0
deriving DecidableEq

/-- `struct ElementPadding`, four f32 sides, zero by default. -/
structure ElementPadding where
  right : ℚ := 0
  top : ℚ := 0
  left : ℚ := 0
  bottom : ℚ := 0
deriving DecidableEq

/-- `struct Element`: a UI node value. All fields zero-initialised. -/
structure Element where
  id : ElementId := {}
  pos : Vec2 := {}
  alignment : Vec2 := {}
  extent : Vec2 := {}
  padding : ElementPadding := {}
  flags : ℕ := 0
deriving DecidableEq

/-- `Element::from_id`: a default Element with the given id. -/
def Element.from_id (i : ElementId) : Element := { id := i }

/-- `struct ElementConstraints`. -/
structure ElementConstraints where
  index : ElementIndex := {}
  minExtent : Vec2 := {}
  maxExtent : Vec2 := {}
deriving DecidableEq

/-- Pointwise update of a flat-memory array at one index. -/
def store {α : Type} (f : Int → α) (i : Int) (v : α) : Int → α :=
  fun j => if j = i then v else f j

theorem store_same {α : Type} (f : Int → α) (i : Int) (v : α) : store f i v i = v := by
  simp [store]

theorem store_other {α : Type} (f : Int → α) (i : Int) (v : α) (j : Int) (h : j ≠ i) :
    store f i v j = f j := by
  simp [store, h]

/-- `struct ElementTree`: structure-of-arrays store. The arrays are
modelled as total maps over flat memory; `elementCapacity` delimits the
region `init` actually allocated. -/
structure ElementTree where
  elements : Int → Element
  parents : Int → ElementIndex
  firstChildren : Int → ElementIndex
  lastChildren : Int → ElementIndex
  siblings : Int → ElementIndex
  positions : Int → Vec2
  elementCount : Int := 0
  elementCapacity : Int := 0
  constraints : Int → ElementConstraints
  constraintCount : Int := 0
  constraintCapacity : Int := 0

/-- A freshly allocated tree of the given capacity: `ElementTree::init`
obtains uninitialised arrays from the allocator; this instantiation takes
the arbitrary initial array contents as arguments. -/
def ElementTree.init (elems : Int → Element) (pars fcs lcs sibs : Int → ElementIndex)
    (poss : Int → Vec2) (cons : Int → ElementConstraints) (capacity : Int) : ElementTree :=
  { elements := elems, parents := pars, firstChildren := fcs, lastChildren := lcs,
    siblings := sibs, positions := poss, elementCapacity := capacity,
    constraints := cons }

/-- `ElementTree::begin_ui`: resets the element count to 0. -/
def ElementTree.begin_ui (t : ElementTree) : ElementTree :=
  { t with elementCount := 0 }

/-- `ElementTree::push_element` (src/example.cpp lines 217-235), translated
statement by statement. `result` is `ElementIndex{ elementCount }`; the five
arrays are written at `result.index`, where the link slots receive the
value-initialised `ElementIndex{}` whose `index` field defaults to 0; then,
when `parent.index != -1`, the parent's child-list links are updated.
The source never increments `elementCount`. -/
def ElementTree.push_element (t : ElementTree) (parent : ElementIndex) (elem : Element) :
    ElementIndex × ElementTree :=
  let result : ElementIndex := ⟨t.elementCount⟩
  let t1 : ElementTree := { t with
    elements := store t.elements result.index elem,
    parents := store t.parents result.index parent,
    firstChildren := store t.firstChildren result.index {},
    lastChildren := store t.lastChildren result.index {},
    siblings := store t.siblings result.index {} }
  let t2 : ElementTree :=
    if parent.index ≠ -1 then
      let ta : ElementTree :=
        if (t1.lastChildren parent.index).index ≠ -1 then
          { t1 with siblings := store t1.siblings (t1.lastChildren parent.index).index result }
        else t1
      let tb : ElementTree := { ta with lastChildren := store ta.lastChildren parent.index result }
      if (tb.firstChildren parent.index).index = -1 then
        { tb with firstChildren := store tb.firstChildren parent.index result }
      else tb
    else t1
  (result, t2)

/-- `ElementTree::layout` (src/example.cpp lines 237-242): a `for` loop
over `i < elementCount` whose body is empty. -/
def ElementTree.layoutLoop (t : ElementTree) : ℕ → ElementTree
  | 0 => t
  | n + 1 => t.layoutLoop n

/-- `ElementTree::layout`: runs the (empty-bodied) measurement loop. -/
def ElementTree.layout (t : ElementTree) : ElementTree :=
  t.layoutLoop t.elementCount.toNat

/-- One iteration of the `ElementTree::transform` loop at index `i`:
`parentOrigin` is `positions[parents[i]]` when `parents[i].index != -1`
and the zero vector otherwise (the source also loads `parentExtent`,
which it never uses), and `positions[i] = parentOrigin + elements[i].pos`. -/
def ElementTree.transformStep (t : ElementTree) (i : Int) : ElementTree :=
  let parentOrigin : Vec2 :=
    if (t.parents i).index ≠ -1 then t.positions (t.parents i).index else {}
  { t with positions := store t.positions i (parentOrigin + (t.elements i).pos) }

/-- The `transform` loop run for the first `n` indices, in index order. -/
def ElementTree.transformLoop (t : ElementTree) : ℕ → ElementTree
  | 0 => t
  | n + 1 => (t.transformLoop n).transformStep n

/-- `ElementTree::transform` (src/example.cpp lines 244-255). -/
def ElementTree.transform (t : ElementTree) : ElementTree :=
  t.transformLoop t.elementCount.toNat

/-- `ElementTree::end_ui`: layout then transform. -/
def ElementTree.end_ui (t : ElementTree) : ElementTree :=
  t.layout.transform

/-- `ElementTree::operator[]` (src/example.cpp lines 257-259): returns
`elements + index.index` with no bounds check; modelled as reading the
flat-memory element array at that index. -/
def ElementTree.lookup (t : ElementTree) (i : ElementIndex) : Element :=
  t.elements i.index

/-- A concrete zeroed tree used for concrete evaluations. -/
def zeroTree (capacity : Int) : ElementTree :=
  ElementTree.init (fun _ => {}) (fun _ => {}) (fun _ => {}) (fun _ => {}) (fun _ => {})
    (fun _ => {}) (fun _ => {}) capacity

/-- `enum class EventType`. -/
inductive EventType where
  | MOUSE_MOVE
  | MOUSE_DOWN
  | MOUSE_UP
deriving DecidableEq

/-- `struct Event`. -/
structure Event where
  type : EventType
  x : Int
  y : Int
  button : Int
deriving DecidableEq

/-- `struct DrawCommand`. -/
structure DrawCommand where
  elementIndex : ElementIndex
  color : Vec4
deriving DecidableEq

/-- `struct VirtualFrame`: a staging buffer handle and a fence handle,
where fence 0 means no outstanding fence. -/
structure VirtualFrame where
  stagingBuffer : Int := 0
  fence : Int := 0
deriving DecidableEq

/-- `FixedArray<VirtualFrame, 3>::capacity`. -/
def virtualFramesCapacity : Int := 3

/-- Oracle for the GL synchronisation primitives: `clientWaitSync`
maps (sync handle, flags, timeout) to the returned GLenum, and
`fenceSync` maps (condition, flags) to the created fence handle. -/
structure GLOracle where
  clientWaitSync : Int → ℕ → ℕ → ℕ
  fenceSync : ℕ → ℕ → Int

/-- `struct Context` (the fields the render tick reads and writes;
the GL object handles `geomBuf`, `sceneBuf`, `vao`, `prog` are opaque). -/
structure Context where
  events : List Event
  drawCommands : List DrawCommand
  elementTree : ElementTree
  virtualFrames : Int → VirtualFrame
  virtualFrameIdx : Int

/-- `Context::begin_frame` (src/example.cpp lines 374-391): if the current
frame has a fence, poll it with `gl_client_wait_sync(fence, 0, 0)` — flags 0
and timeout 0, a non-blocking poll. `GL_WAIT_FAILED` logs "Wait failed" and
returns false; `GL_TIMEOUT_EXPIRED` logs "Timeout expired" and returns
false; any other result deletes the fence and stores 0 in its slot, then
returns true. With no fence outstanding it returns true immediately.
The returned triple is (result, updated context, console log lines). -/
def Context.begin_frame (c : Context) (gl : GLOracle) : Bool × Context × List String :=
  let frame := c.virtualFrames c.virtualFrameIdx
  if frame.fence ≠ 0 then
    let result := gl.clientWaitSync frame.fence 0 0
    if result = GL_WAIT_FAILED then
      (false, c, ["Wait failed"])
    else if result = GL_TIMEOUT_EXPIRED then
      (false, c, ["Timeout expired"])
    else
      (true,
        { c with virtualFrames :=
            store c.virtualFrames c.virtualFrameIdx { frame with fence := 0 } },
        [])
  else
    (true, c, [])

/-- `Context::end_frame` (src/example.cpp lines 393-399): arm a fence from
`gl_fence_sync(GL_SYNC_GPU_COMMANDS_COMPLETE, 0)` on the current frame,
increment `virtualFrameIdx`, and wrap it to 0 once it reaches the
capacity of the frame ring. -/
def Context.end_frame (c : Context) (gl : GLOracle) : Context :=
  let newFence := gl.fenceSync GL_SYNC_GPU_COMMANDS_COMPLETE 0
  let frame := c.virtualFrames c.virtualFrameIdx
  let vf := store c.virtualFrames c.virtualFrameIdx { frame with fence := newFence }
  let c1 : Context := { c with virtualFrames := vf }
  let idx := c.virtualFrameIdx + 1
  { c1 with virtualFrameIdx := if idx ≥ virtualFramesCapacity then 0 else idx }

/-- Stand-in for `new_id()` = `hash_combine(hash_int(__LINE__),
hash_string(__FILE__))`: the hash itself is an external oak_util function;
only distinctness per call site could matter and no claim depends on the
value, so the line number is used as the id. -/
def new_id (line : ℕ) : ElementId := ⟨line⟩

/-- The observable outcome of one `c_render` tick: the final context, the
new value of the static `lastTimestamp`, the staging-buffer uploads issued
through `gl_buffer_sub_data(GL_COPY_READ_BUFFER, offset, data, size)` as
(offset, size) pairs, the vertex counts passed to `gl_draw_arrays`, and
the console log lines. -/
structure TickResult where
  ctx : Context
  lastTimestamp : ℚ
  stagingWrites : List (Int × ℕ)
  drawArraysCalls : List Int
  logs : List String

/-- `sizeof(rectangle)` in `push_rectangle`: 36 f32 values, 144 bytes. -/
def rectangleBytes : ℕ := 144

/-- `sizeof(triangle)` in `c_render`: 18 f32 values, 72 bytes. -/
def triangleBytes : ℕ := 72

/-- The construction phase of `c_render` (src/example.cpp lines 448-481),
run when the event queue is nonempty: rebuild the two-element tree
(`begin_ui`, push the window root with parent -1, push the other element
under it, set its extent to (32, 128) through `operator[]`, `end_ui`),
drain the events in order (a MOUSE_MOVE sets `mouseX = x`,
`mouseY = 600 - y`; `mouseX0`/`mouseY0` are the indeterminate initial
values of the uninitialised locals), clear the event queue, and append
one draw command whose color depends on the mouse hit test against the
other element's box. -/
def c_render_build (ctx : Context) (mouseX0 mouseY0 : Int) : Context :=
  let tree := ctx.elementTree.begin_ui
  let pushed1 := tree.push_element ⟨-1⟩ (Element.from_id (new_id 450))
  let windowElem := pushed1.1
  let tree := pushed1.2
  let pushed2 := tree.push_element windowElem (Element.from_id (new_id 451))
  let otherElem := pushed2.1
  let tree := pushed2.2
  let otherSlot := tree.elements otherElem.index
  let elems := store tree.elements otherElem.index { otherSlot with extent := ⟨32, 128⟩ }
  let tree : ElementTree := { tree with elements := elems }
  let tree := tree.end_ui
  let mouse := ctx.events.foldl
    (fun (m : Int × Int) evt =>
      match evt.type with
      | EventType.MOUSE_MOVE => (evt.x, 600 - evt.y)
      | EventType.MOUSE_DOWN => m
      | EventType.MOUSE_UP => m)
    (mouseX0, mouseY0)
  let mouseX := mouse.1
  let mouseY := mouse.2
  let ctx : Context := { ctx with elementTree := tree, events := [] }
  let oElem := tree.elements otherElem.index
  let cmd : DrawCommand :=
    if (mouseX : ℚ) ≥ oElem.pos.x ∧ (mouseX : ℚ) ≤ oElem.pos.x + oElem.extent.x
        ∧ (mouseY : ℚ) ≥ oElem.pos.y ∧ (mouseY : ℚ) ≤ oElem.pos.y + oElem.extent.y then
      { elementIndex := otherElem, color := ⟨1/10, 1/5, 9/10, 1⟩ }
    else
      { elementIndex := otherElem, color := ⟨1, 0, 0, 0⟩ }
  { ctx with drawCommands := ctx.drawCommands ++ [cmd] }

/-- `c_render` (src/example.cpp lines 434-531), the per-tick entry point.
The static `lastTimestamp` is threaded explicitly and always updated. If
the event queue is empty the tick returns at once. Otherwise it runs the
construction phase (`c_render_build`) and calls `begin_frame`; on failure
the tick returns there, with no staging write, no draw call and no
`end_frame`. On success it writes one 144-byte rectangle per buffered draw
command to the staging buffer at increasing offsets, clears the draw
command queue, writes the 72-byte spinning triangle, issues the draw call
for `offset / 24` vertices, and calls `end_frame`. -/
def c_render (ctx : Context) (gl : GLOracle) (lastTimestamp timestamp : ℚ)
    (mouseX0 mouseY0 : Int) : TickResult :=
  let _dt := timestamp - lastTimestamp
  if ctx.events.length = 0 then
    { ctx := ctx, lastTimestamp := timestamp, stagingWrites := [],
      drawArraysCalls := [], logs := [] }
  else
    let ctx := c_render_build ctx mouseX0 mouseY0
    let began := ctx.begin_frame gl
    let ctx := began.2.1
    if !began.1 then
      { ctx := ctx, lastTimestamp := timestamp, stagingWrites := [],
        drawArraysCalls := [], logs := began.2.2 }
    else
      let rectWrites := (List.range ctx.drawCommands.length).map
        (fun i => (((rectangleBytes * i : ℕ) : Int), rectangleBytes))
      let offset : Int := ((rectangleBytes * ctx.drawCommands.length : ℕ) : Int)
      let ctx : Context := { ctx with drawCommands := [] }
      let writes := rectWrites ++ [(offset, triangleBytes)]
      let offset := offset + triangleBytes
      let ctx := ctx.end_frame gl
      { ctx := ctx, lastTimestamp := timestamp, stagingWrites := writes,
        drawArraysCalls := [offset / 24], logs := began.2.2 }

/-! ## Helper lemmas -/

theorem push_element_fst (t : ElementTree) (p : ElementIndex) (e : Element) :
    (t.push_element p e).1 = ⟨t.elementCount⟩ := rfl

theorem push_element_elements (t : ElementTree) (p : ElementIndex) (e : Element) :
    (t.push_element p e).2.elements = store t.elements t.elementCount e := by
  unfold ElementTree.push_element
  dsimp only
  split_ifs <;> rfl

theorem push_element_parents (t : ElementTree) (p : ElementIndex) (e : Element) :
    (t.push_element p e).2.parents = store t.parents t.elementCount p := by
  unfold ElementTree.push_element
  dsimp only
  split_ifs <;> rfl

theorem push_element_elementCount (t : ElementTree) (p : ElementIndex) (e : Element) :
    (t.push_element p e).2.elementCount = t.elementCount := by
  unfold ElementTree.push_element
  dsimp only
  split_ifs <;> rfl

theorem layoutLoop_id (t : ElementTree) (n : ℕ) : t.layoutLoop n = t := by
  induction n with
  | zero => rfl
  | succ n ih => exact ih

theorem layout_id (t : ElementTree) : t.layout = t := layoutLoop_id t _

/-! ## Claim theorems -/

/-- C1: the claim says the k-th successful append stores at slot k-1,
returns index k-1, and leaves elementCount equal to the number of appends,
every returned index lying below the element count. The code never
increments `elementCount`: universally, `push_element` leaves the count
unchanged, and concretely, after `begin_ui` and two appends on a zeroed
capacity-8 tree both appends return index 0, the count is still 0, and the
returned index is not below the count. -/
theorem c1_push_element_count_bug :
    (∀ (t : ElementTree) (p : ElementIndex) (e : Element),
      (t.push_element p e).2.elementCount = t.elementCount) ∧
    ((zeroTree 8).begin_ui.push_element ⟨-1⟩ (Element.from_id ⟨1⟩)).1.index = 0 ∧
    (((zeroTree 8).begin_ui.push_element ⟨-1⟩ (Element.from_id ⟨1⟩)).2.push_element
        ((zeroTree 8).begin_ui.push_element ⟨-1⟩ (Element.from_id ⟨1⟩)).1
        (Element.from_id ⟨2⟩)).1.index = 0 ∧
    (((zeroTree 8).begin_ui.push_element ⟨-1⟩ (Element.from_id ⟨1⟩)).2.push_element
        ((zeroTree 8).begin_ui.push_element ⟨-1⟩ (Element.from_id ⟨1⟩)).1
        (Element.from_id ⟨2⟩)).2.elementCount = 0 ∧
    ¬ (((zeroTree 8).begin_ui.push_element ⟨-1⟩ (Element.from_id ⟨1⟩)).2.push_element
        ((zeroTree 8).begin_ui.push_element ⟨-1⟩ (Element.from_id ⟨1⟩)).1
        (Element.from_id ⟨2⟩)).1.index <
      (((zeroTree 8).begin_ui.push_element ⟨-1⟩ (Element.from_id ⟨1⟩)).2.push_element
        ((zeroTree 8).begin_ui.push_element ⟨-1⟩ (Element.from_id ⟨1⟩)).1
        (Element.from_id ⟨2⟩)).2.elementCount := by
  refine ⟨fun t p e => push_element_elementCount t p e, ?_, ?_, ?_, ?_⟩ <;> decide

/-- C2: the claim says a newly appended element's firstChild, lastChild and
nextSibling links hold the no-child value -1. In the code those slots are
written with the value-initialised `ElementIndex{}`, whose `index` member
defaults to 0, so after appending a root to a zeroed tree all three links of
the new slot are 0, not -1. -/
theorem c2_new_element_links_zero_not_minus_one :
    ((zeroTree 8).begin_ui.push_element ⟨-1⟩ (Element.from_id ⟨1⟩)).2.firstChildren 0 =
      (⟨0⟩ : ElementIndex) ∧
    ((zeroTree 8).begin_ui.push_element ⟨-1⟩ (Element.from_id ⟨1⟩)).2.lastChildren 0 =
      (⟨0⟩ : ElementIndex) ∧
    ((zeroTree 8).begin_ui.push_element ⟨-1⟩ (Element.from_id ⟨1⟩)).2.siblings 0 =
      (⟨0⟩ : ElementIndex) ∧
    (⟨0⟩ : ElementIndex) ≠ (⟨-1⟩ : ElementIndex) := by
  refine ⟨?_, ?_, ?_, ?_⟩ <;> decide

/-- A zeroed tree whose count equals its capacity (both 0), for the
capacity-boundary counterexample. -/
def treeC3 : ElementTree := zeroTree 0

/-- C3 counterexample: on a tree whose element count equals its capacity,
`push_element` does not fail and does mutate the element array: the slot at
index 0 (one past the valid region) changes. -/
theorem c3_capacity_counterexample :
    treeC3.elementCount = treeC3.elementCapacity ∧
    (treeC3.push_element ⟨-1⟩ { flags := 7 }).2.elements 0 ≠ treeC3.elements 0 := by
  refine ⟨rfl, ?_⟩
  decide

/-- C3 amended: `push_element` performs no capacity check and has no
failure path; when the element count equals the capacity it still writes
the element and the parent link at slot `elementCount`, one past the last
valid slot, and leaves the count unchanged. -/
theorem c3_push_at_capacity_still_writes (t : ElementTree) (p : ElementIndex) (e : Element)
    (h : t.elementCount = t.elementCapacity) :
    (t.push_element p e).2.elements t.elementCapacity = e ∧
    (t.push_element p e).2.parents t.elementCapacity = p ∧
    (t.push_element p e).2.elementCount = t.elementCapacity := by
  rw [← h]
  refine ⟨?_, ?_, push_element_elementCount t p e⟩
  · rw [push_element_elements]
    exact store_same _ _ _
  · rw [push_element_parents]
    exact store_same _ _ _

/-- C3 amended, witness at a concrete input: treeC3 has count = capacity,
and pushing onto it writes the element at slot 0. -/
theorem c3_push_at_capacity_still_writes_witness :
    (treeC3.push_element ⟨-1⟩ { flags := 7 }).2.elements treeC3.elementCapacity =
      { flags := 7 } ∧
    (treeC3.push_element ⟨-1⟩ { flags := 7 }).2.parents treeC3.elementCapacity =
      (⟨-1⟩ : ElementIndex) ∧
    (treeC3.push_element ⟨-1⟩ { flags := 7 }).2.elementCount = treeC3.elementCapacity :=
  c3_push_at_capacity_still_writes treeC3 ⟨-1⟩ { flags := 7 } rfl

/-- A one-node tree whose element has extent (200, 200) and whose
constraint entry targets index 0 with maxExtent (100, 100). -/
def treeC8 : ElementTree :=
  { elements := store (fun _ => {}) 0 ({ extent := ⟨200, 200⟩ }),
    parents := fun _ => {},
    firstChildren := fun _ => {},
    lastChildren := fun _ => {},
    siblings := fun _ => {},
    positions := fun _ => {},
    elementCount := 1,
    elementCapacity := 4,
    constraints := store (fun _ => {}) 0 ({ index := ⟨0⟩, maxExtent := ⟨100, 100⟩ }),
    constraintCount := 1,
    constraintCapacity := 4 }

/-- C8: the claim says layout() clamps extents to attached constraints, so
a node with extent 200 and maxExtent 100 reports 100. The source layout()
is a loop with an empty body: universally `layout` is the identity, and on
the concrete constrained tree the extent stays (200, 200), not (100, 100). -/
theorem c8_layout_is_empty_loop :
    (∀ t : ElementTree, t.layout = t) ∧
    (treeC8.layout.elements 0).extent = (⟨200, 200⟩ : Vec2) ∧
    ((⟨200, 200⟩ : Vec2) ≠ (⟨100, 100⟩ : Vec2)) := by
  refine ⟨layout_id, ?_, ?_⟩
  · rw [layout_id]
    decide
  · decide

/-- A tree with element count 0 whose flat element memory is filled with
distinguishable values, for the unguarded-lookup counterexample. -/
def treeC9 : ElementTree :=
  { elements := fun j => ({ flags := j.natAbs }),
    parents := fun _ => {},
    firstChildren := fun _ => {},
    lastChildren := fun _ => {},
    siblings := fun _ => {},
    positions := fun _ => {},
    elementCount := 0,
    elementCapacity := 4,
    constraints := fun _ => {},
    constraintCount := 0,
    constraintCapacity := 4 }

/-- C9 counterexample: on a tree with element count 0, `operator[]` at
index 5 (≥ count) does not fail: it yields the contents of slot 5, outside
the valid range. -/
theorem c9_lookup_counterexample :
    treeC9.elementCount = 0 ∧ treeC9.lookup ⟨5⟩ = ({ flags := 5 } : Element) := by
  refine ⟨rfl, ?_⟩
  decide

/-- C9 amended: `operator[]` performs no bounds check: for every index,
in range or not, it returns the flat element memory at that index, and in
particular dereferencing the index just returned by `push_element` yields
the pushed element. -/
theorem c9_lookup_unguarded (t : ElementTree) (p : ElementIndex) (e : Element)
    (i : ElementIndex) :
    t.lookup i = t.elements i.index ∧
    (t.push_element p e).2.lookup (t.push_element p e).1 = e := by
  refine ⟨rfl, ?_⟩
  show (t.push_element p e).2.elements (t.push_element p e).1.index = e
  rw [push_element_fst, push_element_elements]
  exact store_same _ _ _

/-- C4: begin_frame never blocks (the poll passes timeout 0) and behaves
by case on the current frame: with no outstanding fence it returns true
and changes nothing; with a fence it polls `clientWaitSync(fence, 0, 0)`;
wait-failed logs the error and returns false with the context unchanged;
timeout returns false with the context unchanged (fence left armed); any
signaled result returns true, zeroes the fence of the current frame (the
frame is idle) and touches nothing else. -/
theorem c4_begin_frame_cases (c : Context) (gl : GLOracle) :
    ((c.virtualFrames c.virtualFrameIdx).fence = 0 →
      c.begin_frame gl = (true, c, [])) ∧
    ((c.virtualFrames c.virtualFrameIdx).fence ≠ 0 →
      (gl.clientWaitSync (c.virtualFrames c.virtualFrameIdx).fence 0 0 = GL_WAIT_FAILED →
        c.begin_frame gl = (false, c, ["Wait failed"])) ∧
      (gl.clientWaitSync (c.virtualFrames c.virtualFrameIdx).fence 0 0 = GL_TIMEOUT_EXPIRED →
        c.begin_frame gl = (false, c, ["Timeout expired"])) ∧
      (gl.clientWaitSync (c.virtualFrames c.virtualFrameIdx).fence 0 0 ≠ GL_WAIT_FAILED →
        gl.clientWaitSync (c.virtualFrames c.virtualFrameIdx).fence 0 0 ≠ GL_TIMEOUT_EXPIRED →
        (c.begin_frame gl).1 = true ∧
        ((c.begin_frame gl).2.1.virtualFrames c.virtualFrameIdx).fence = 0 ∧
        (∀ j : Int, j ≠ c.virtualFrameIdx →
          (c.begin_frame gl).2.1.virtualFrames j = c.virtualFrames j) ∧
        (c.begin_frame gl).2.1.virtualFrameIdx = c.virtualFrameIdx ∧
        (c.begin_frame gl).2.1.events = c.events ∧
        (c.begin_frame gl).2.1.drawCommands = c.drawCommands)) := by
  have e : c.begin_frame gl =
      (if (c.virtualFrames c.virtualFrameIdx).fence ≠ 0 then
        (if gl.clientWaitSync (c.virtualFrames c.virtualFrameIdx).fence 0 0 = GL_WAIT_FAILED
          then (false, c, ["Wait failed"])
          else if gl.clientWaitSync (c.virtualFrames c.virtualFrameIdx).fence 0 0 =
              GL_TIMEOUT_EXPIRED
            then (false, c, ["Timeout expired"])
            else (true,
              { c with virtualFrames := store c.virtualFrames c.virtualFrameIdx ({ c.virtualFrames c.virtualFrameIdx with fence := 0 }) },
              []))
       else (true, c, [])) := rfl
  constructor
  · intro h0
    rw [e, if_neg (by simp [h0])]
  · intro hf
    refine ⟨?_, ?_, ?_⟩
    · intro hw
      rw [e, if_pos hf, if_pos hw]
    · intro hw
      rw [e, if_pos hf, if_neg (by rw [hw]; decide), if_pos hw]
    · intro hw1 hw2
      rw [e, if_pos hf, if_neg hw1, if_neg hw2]
      refine ⟨rfl, ?_, ?_, rfl, rfl, rfl⟩
      · exact congrArg VirtualFrame.fence (store_same _ _ _)
      · intro j hj
        exact store_other _ _ _ j hj

/-- Concrete context with an armed fence on every frame, for witnesses. -/
def ctxW : Context :=
  { events := [], drawCommands := [], elementTree := zeroTree 4,
    virtualFrames := fun _ => { stagingBuffer := 2, fence := 1 },
    virtualFrameIdx := 0 }

/-- Concrete GL oracle whose fence poll always reports a timeout. -/
def glTimeout : GLOracle :=
  { clientWaitSync := fun _ _ _ => GL_TIMEOUT_EXPIRED, fenceSync := fun _ _ => 5 }

/-- C4 witness: on a concrete context whose current frame has fence 1 and
an oracle reporting timeout, begin_frame returns false, leaves the context
unchanged and logs the timeout. -/
theorem c4_begin_frame_cases_witness :
    ctxW.begin_frame glTimeout = (false, ctxW, ["Timeout expired"]) :=
  ((c4_begin_frame_cases ctxW glTimeout).2 (by decide)).2.1 (by decide)

/-- C6: end_frame arms the fence produced by
`gl_fence_sync(GL_SYNC_GPU_COMMANDS_COMPLETE, 0)` on the current frame and
advances the cursor to (cursor+1) mod 3; the cursor stays in [0, 3); and
three consecutive end_frame calls return the cursor to its starting value
with every one of the three frames carrying a newly armed fence. -/
theorem c6_end_frame_ring (c : Context) (gl : GLOracle)
    (hlo : 0 ≤ c.virtualFrameIdx) (hhi : c.virtualFrameIdx < 3)
    (hf : gl.fenceSync GL_SYNC_GPU_COMMANDS_COMPLETE 0 ≠ 0) :
    ((c.end_frame gl).virtualFrames c.virtualFrameIdx).fence =
      gl.fenceSync GL_SYNC_GPU_COMMANDS_COMPLETE 0 ∧
    ((c.end_frame gl).virtualFrames c.virtualFrameIdx).fence ≠ 0 ∧
    (c.end_frame gl).virtualFrameIdx = (c.virtualFrameIdx + 1) % 3 ∧
    (0 ≤ (c.end_frame gl).virtualFrameIdx ∧ (c.end_frame gl).virtualFrameIdx < 3) ∧
    (((c.end_frame gl).end_frame gl).end_frame gl).virtualFrameIdx = c.virtualFrameIdx ∧
    (∀ j : Int, 0 ≤ j → j < 3 →
      ((((c.end_frame gl).end_frame gl).end_frame gl).virtualFrames j).fence =
        gl.fenceSync GL_SYNC_GPU_COMMANDS_COMPLETE 0) := by
  have h3 : c.virtualFrameIdx = 0 ∨ c.virtualFrameIdx = 1 ∨ c.virtualFrameIdx = 2 := by omega
  rcases h3 with h | h | h <;>
  · refine ⟨?_, ?_, ?_, ?_, ?_, ?_⟩
    · simp [Context.end_frame, store, h]
    · simp [Context.end_frame, store, h, hf]
    · simp [Context.end_frame, virtualFramesCapacity, h]
    · simp [Context.end_frame, virtualFramesCapacity, h]
    · simp [Context.end_frame, virtualFramesCapacity, store, h]
    · intro j hj0 hj3
      have hj : j = 0 ∨ j = 1 ∨ j = 2 := by omega
      rcases hj with hj | hj | hj <;>
        simp [Context.end_frame, virtualFramesCapacity, store, h, hj]

/-- C6 witness: from cursor 0 with an oracle creating fence handle 5, one
end_frame arms fence 5 on frame 0 and moves the cursor to 1, and three
end_frames return the cursor to 0 with all three frames armed. -/
theorem c6_end_frame_ring_witness :
    ((ctxW.end_frame glTimeout).virtualFrames ctxW.virtualFrameIdx).fence = 5 ∧
    (ctxW.end_frame glTimeout).virtualFrameIdx = 1 ∧
    (((ctxW.end_frame glTimeout).end_frame glTimeout).end_frame glTimeout).virtualFrameIdx =
      0 := by
  have h := c6_end_frame_ring ctxW glTimeout (by decide) (by decide) (by decide)
  exact ⟨h.1, h.2.2.1, h.2.2.2.2.1⟩

/-! ## Transform pass lemmas -/

theorem vec2_zero_add (v : Vec2) : ({} : Vec2) + v = v := by
  cases v with
  | mk x y => simp [Vec2.add_def]

theorem transformStep_parents (t : ElementTree) (i : Int) :
    (t.transformStep i).parents = t.parents := rfl

theorem transformStep_elements (t : ElementTree) (i : Int) :
    (t.transformStep i).elements = t.elements := rfl

theorem transformStep_positions (t : ElementTree) (i : Int) :
    (t.transformStep i).positions =
      store t.positions i
        ((if (t.parents i).index ≠ -1 then t.positions (t.parents i).index else {}) +
          (t.elements i).pos) := rfl

theorem transformLoop_parents (t : ElementTree) (n : ℕ) :
    (t.transformLoop n).parents = t.parents := by
  induction n with
  | zero => rfl
  | succ n ih =>
    show ((t.transformLoop n).transformStep n).parents = t.parents
    rw [transformStep_parents, ih]

theorem transformLoop_elements (t : ElementTree) (n : ℕ) :
    (t.transformLoop n).elements = t.elements := by
  induction n with
  | zero => rfl
  | succ n ih =>
    show ((t.transformLoop n).transformStep n).elements = t.elements
    rw [transformStep_elements, ih]

theorem transformLoop_positions_stable (t : ElementTree) (m n : ℕ) (h : n ≤ m) (j : Int)
    (hj : j < (n : Int)) :
    (t.transformLoop m).positions j = (t.transformLoop n).positions j := by
  induction m with
  | zero =>
    have h0 : n = 0 := Nat.le_zero.mp h
    rw [h0]
  | succ m ih =>
    by_cases hnm : n = m + 1
    · rw [hnm]
    · have hnm2 : n ≤ m := by omega
      have hjm : j ≠ (m : Int) := by
        have hc : (n : Int) ≤ (m : Int) := by exact_mod_cast hnm2
        omega
      show ((t.transformLoop m).transformStep m).positions j = _
      rw [transformStep_positions, store_other _ _ _ j hjm]
      exact ih hnm2

theorem transformLoop_succ_at (t : ElementTree) (n : ℕ) :
    (t.transformLoop (n + 1)).positions n =
      (if (t.parents n).index ≠ -1 then (t.transformLoop n).positions (t.parents n).index
        else {}) + (t.elements n).pos := by
  show ((t.transformLoop n).transformStep n).positions n = _
  rw [transformStep_positions, store_same, transformLoop_parents, transformLoop_elements]

/-- C7: after transform(), assuming every node's parent link is -1 or a
strictly smaller valid index (which holds for trees built by parent-first
appends), a node with parent -1 ends at its own local offset, and a node
with a parent ends at its parent's final absolute position plus its own
local offset. -/
theorem c7_transform_positions (t : ElementTree)
    (hpar : ∀ i : Int, 0 ≤ i → i < t.elementCount →
      (t.parents i).index = -1 ∨ (0 ≤ (t.parents i).index ∧ (t.parents i).index < i))
    (i : Int) (hi0 : 0 ≤ i) (hic : i < t.elementCount) :
    ((t.parents i).index = -1 → t.transform.positions i = (t.elements i).pos) ∧
    ((t.parents i).index ≠ -1 →
      t.transform.positions i =
        t.transform.positions (t.parents i).index + (t.elements i).pos) := by
  have hN : t.transform = t.transformLoop t.elementCount.toNat := rfl
  have key : ∀ k : ℕ, k < t.elementCount.toNat →
      (t.transformLoop t.elementCount.toNat).positions k =
        (if (t.parents k).index ≠ -1 then
            (t.transformLoop t.elementCount.toNat).positions (t.parents k).index
          else {}) + (t.elements k).pos := by
    intro k hk
    have h1 : (t.transformLoop t.elementCount.toNat).positions k =
        (t.transformLoop (k + 1)).positions k := by
      refine transformLoop_positions_stable t _ _ hk k ?_
      exact_mod_cast Nat.lt_succ_self k
    rw [h1, transformLoop_succ_at]
    by_cases hp : (t.parents (k : Int)).index = -1
    · simp [hp]
    · have hrange := hpar k (Int.natCast_nonneg k) (by omega)
      rcases hrange with h | ⟨hp0, hpk⟩
      · exact absurd h hp
      · have h2 : (t.transformLoop t.elementCount.toNat).positions (t.parents k).index =
            (t.transformLoop k).positions (t.parents k).index :=
          transformLoop_positions_stable t _ _ (Nat.le_of_lt hk) _ hpk
        rw [h2]
  have hiN : i.toNat < t.elementCount.toNat := by omega
  have hcast : (i.toNat : Int) = i := Int.toNat_of_nonneg hi0
  have hkey := key i.toNat hiN
  rw [hcast] at hkey
  constructor
  · intro hp
    rw [hN, hkey]
    simp [hp, vec2_zero_add]
  · intro hp
    rw [hN, hkey]
    simp [hp]

/-- A concrete two-node tree for the C7 witness: the root at slot 0 has
local offset (10, 10) and parent -1; the child at slot 1 has local offset
(5, 5) and parent 0. -/
def treeC7 : ElementTree :=
  { elements := store (store (fun _ => {}) 0 ({ pos := ⟨10, 10⟩ })) 1 ({ pos := ⟨5, 5⟩ }),
    parents := store (store (fun _ => {}) 0 ⟨-1⟩) 1 ⟨0⟩,
    firstChildren := fun _ => {},
    lastChildren := fun _ => {},
    siblings := fun _ => {},
    positions := fun _ => {},
    elementCount := 2,
    elementCapacity := 4,
    constraints := fun _ => {},
    constraintCount := 0,
    constraintCapacity := 4 }

/-- C7 witness: on the concrete (10,10)-parent / (5,5)-child tree, after
transform() the child's absolute position relation from the theorem holds
at index 1, giving (15, 15), and the root sits at (10, 10). -/
theorem c7_transform_positions_witness :
    treeC7.transform.positions 1 = treeC7.transform.positions 0 + (⟨5, 5⟩ : Vec2) ∧
    treeC7.transform.positions 0 = (⟨10, 10⟩ : Vec2) ∧
    treeC7.transform.positions 1 = (⟨15, 15⟩ : Vec2) := by
  have hpar : ∀ i : Int, 0 ≤ i → i < treeC7.elementCount →
      (treeC7.parents i).index = -1 ∨
        (0 ≤ (treeC7.parents i).index ∧ (treeC7.parents i).index < i) := by
    intro i hi0 hic
    have hi : i = 0 ∨ i = 1 := by
      have : treeC7.elementCount = 2 := rfl
      omega
    rcases hi with hi | hi <;> rw [hi] <;> decide
  have h1 := c7_transform_positions treeC7 hpar 1 (by decide) (by decide)
  have h0 := c7_transform_positions treeC7 hpar 0 (by decide) (by decide)
  have e0 : (treeC7.parents 0).index = -1 := by decide
  have e1 : (treeC7.parents 1).index = 0 := by decide
  have hpos0 : treeC7.transform.positions 0 = (⟨10, 10⟩ : Vec2) := by
    have := h0.1 e0
    rw [this]
    decide
  have hrel : treeC7.transform.positions 1 =
      treeC7.transform.positions (treeC7.parents 1).index + (treeC7.elements 1).pos :=
    h1.2 (by rw [e1]; decide)
  rw [e1] at hrel
  have hel : (treeC7.elements 1).pos = (⟨5, 5⟩ : Vec2) := by decide
  rw [hel] at hrel
  refine ⟨hrel, hpos0, ?_⟩
  rw [hrel, hpos0, Vec2.add_def]
  norm_num

/-! ## Render tick lemmas -/

theorem begin_frame_expand (c : Context) (gl : GLOracle) :
    c.begin_frame gl =
      (if (c.virtualFrames c.virtualFrameIdx).fence ≠ 0 then
        (if gl.clientWaitSync (c.virtualFrames c.virtualFrameIdx).fence 0 0 = GL_WAIT_FAILED
          then (false, c, ["Wait failed"])
          else if gl.clientWaitSync (c.virtualFrames c.virtualFrameIdx).fence 0 0 =
              GL_TIMEOUT_EXPIRED
            then (false, c, ["Timeout expired"])
            else (true,
              { c with virtualFrames := store c.virtualFrames c.virtualFrameIdx ({ c.virtualFrames c.virtualFrameIdx with fence := 0 }) },
              []))
       else (true, c, [])) := rfl

theorem begin_frame_false (c : Context) (gl : GLOracle)
    (hf : (c.virtualFrames c.virtualFrameIdx).fence ≠ 0)
    (hw : gl.clientWaitSync (c.virtualFrames c.virtualFrameIdx).fence 0 0 = GL_WAIT_FAILED ∨
      gl.clientWaitSync (c.virtualFrames c.virtualFrameIdx).fence 0 0 = GL_TIMEOUT_EXPIRED) :
    (c.begin_frame gl).1 = false ∧ (c.begin_frame gl).2.1 = c := by
  rcases hw with hw | hw
  · rw [begin_frame_expand, if_pos hf, if_pos hw]
    exact ⟨rfl, rfl⟩
  · rw [begin_frame_expand, if_pos hf, if_neg (by rw [hw]; decide), if_pos hw]
    exact ⟨rfl, rfl⟩

theorem c_render_build_virtualFrames (ctx : Context) (mx my : Int) :
    (c_render_build ctx mx my).virtualFrames = ctx.virtualFrames := rfl

theorem c_render_build_virtualFrameIdx (ctx : Context) (mx my : Int) :
    (c_render_build ctx mx my).virtualFrameIdx = ctx.virtualFrameIdx := rfl

theorem c_render_build_events (ctx : Context) (mx my : Int) :
    (c_render_build ctx mx my).events = [] := rfl

theorem c_render_build_drawCommands (ctx : Context) (mx my : Int) :
    ∃ cmd : DrawCommand, (c_render_build ctx mx my).drawCommands =
      ctx.drawCommands ++ [cmd] :=
  ⟨_, rfl⟩

theorem c_render_failed (ctx : Context) (gl : GLOracle) (lts ts : ℚ) (mx my : Int)
    (he : ctx.events ≠ [])
    (hf : (ctx.virtualFrames ctx.virtualFrameIdx).fence ≠ 0)
    (hw : gl.clientWaitSync (ctx.virtualFrames ctx.virtualFrameIdx).fence 0 0 =
        GL_WAIT_FAILED ∨
      gl.clientWaitSync (ctx.virtualFrames ctx.virtualFrameIdx).fence 0 0 =
        GL_TIMEOUT_EXPIRED) :
    c_render ctx gl lts ts mx my =
      { ctx := c_render_build ctx mx my, lastTimestamp := ts, stagingWrites := [],
        drawArraysCalls := [],
        logs := ((c_render_build ctx mx my).begin_frame gl).2.2 } := by
  have hlen : ¬ ctx.events.length = 0 := by
    simpa using he
  have hf2 : ((c_render_build ctx mx my).virtualFrames
      (c_render_build ctx mx my).virtualFrameIdx).fence ≠ 0 := by
    rw [c_render_build_virtualFrames, c_render_build_virtualFrameIdx]
    exact hf
  have hw2 : gl.clientWaitSync ((c_render_build ctx mx my).virtualFrames
        (c_render_build ctx mx my).virtualFrameIdx).fence 0 0 = GL_WAIT_FAILED ∨
      gl.clientWaitSync ((c_render_build ctx mx my).virtualFrames
        (c_render_build ctx mx my).virtualFrameIdx).fence 0 0 = GL_TIMEOUT_EXPIRED := by
    rw [c_render_build_virtualFrames, c_render_build_virtualFrameIdx]
    exact hw
  obtain ⟨hb1, hb2⟩ := begin_frame_false (c_render_build ctx mx my) gl hf2 hw2
  simp only [c_render]
  rw [if_neg hlen, hb1]
  simp only [Bool.not_false, if_true]
  rw [hb2]

/-- C5 amended: in a tick whose `begin_frame` fails (current fence armed
and the zero-timeout poll reports wait-failed or timeout), nothing is
written to the staging buffer, no draw call is issued, no fence is armed
and the cursor does not advance (all frames unchanged), and the event
queue ends empty — but the draw command queue is NOT discarded: the
command buffered this tick stays, leaving the queue one longer than
before. -/
theorem c5_failed_tick (ctx : Context) (gl : GLOracle) (lts ts : ℚ) (mx my : Int)
    (he : ctx.events ≠ [])
    (hf : (ctx.virtualFrames ctx.virtualFrameIdx).fence ≠ 0)
    (hw : gl.clientWaitSync (ctx.virtualFrames ctx.virtualFrameIdx).fence 0 0 =
        GL_WAIT_FAILED ∨
      gl.clientWaitSync (ctx.virtualFrames ctx.virtualFrameIdx).fence 0 0 =
        GL_TIMEOUT_EXPIRED) :
    (c_render ctx gl lts ts mx my).stagingWrites = [] ∧
    (c_render ctx gl lts ts mx my).drawArraysCalls = [] ∧
    (c_render ctx gl lts ts mx my).ctx.virtualFrames = ctx.virtualFrames ∧
    (c_render ctx gl lts ts mx my).ctx.virtualFrameIdx = ctx.virtualFrameIdx ∧
    (c_render ctx gl lts ts mx my).ctx.events = [] ∧
    (c_render ctx gl lts ts mx my).ctx.drawCommands.length =
      ctx.drawCommands.length + 1 := by
  rw [c_render_failed ctx gl lts ts mx my he hf hw]
  refine ⟨rfl, rfl, c_render_build_virtualFrames ctx mx my,
    c_render_build_virtualFrameIdx ctx mx my, c_render_build_events ctx mx my, ?_⟩
  obtain ⟨cmd, hc⟩ := c_render_build_drawCommands ctx mx my
  show (c_render_build ctx mx my).drawCommands.length = ctx.drawCommands.length + 1
  rw [hc]
  simp

/-- Concrete context for the failed-tick scenario: one buffered
mouse-move event, empty draw command queue, fence 1 armed on every
frame. -/
def ctxC5 : Context :=
  { events := [⟨EventType.MOUSE_MOVE, 5, 500, -1⟩], drawCommands := [],
    elementTree := zeroTree 8,
    virtualFrames := fun _ => { stagingBuffer := 2, fence := 1 },
    virtualFrameIdx := 0 }

/-- C5 counterexample: on the concrete failed tick (armed fence, timeout
poll), the draw command queue is NOT empty at the end of the tick — the
claim that both queues end empty is false. -/
theorem c5_counterexample :
    (c_render ctxC5 glTimeout 0 1 0 0).ctx.drawCommands ≠ [] := by
  rw [c_render_failed ctxC5 glTimeout 0 1 0 0 (by decide) (by decide) (Or.inr rfl)]
  obtain ⟨cmd, hc⟩ := c_render_build_drawCommands ctxC5 0 0
  show (c_render_build ctxC5 0 0).drawCommands ≠ []
  rw [hc]
  simp

/-- C5 witness: instantiating the amended theorem on the concrete failed
tick: no staging write, frames untouched, events drained, and the draw
command queue has grown from 0 to 1. -/
theorem c5_failed_tick_witness :
    (c_render ctxC5 glTimeout 0 1 0 0).stagingWrites = [] ∧
    (c_render ctxC5 glTimeout 0 1 0 0).ctx.events = [] ∧
    (c_render ctxC5 glTimeout 0 1 0 0).ctx.drawCommands.length = 1 := by
  have h := c5_failed_tick ctxC5 glTimeout 0 1 0 0 (by decide) (by decide) (Or.inr rfl)
  exact ⟨h.1, h.2.2.2.2.1, h.2.2.2.2.2⟩

/-- C10: a tick entered with an empty event queue changes nothing
observable: the whole context (element tree, draw commands, frames,
cursor) is returned unchanged, no staging write occurs, no draw call is
issued and nothing is logged; only the static `lastTimestamp` advances. -/
theorem c10_empty_events_no_effect (ctx : Context) (gl : GLOracle) (lts ts : ℚ)
    (mx my : Int) (h : ctx.events = []) :
    c_render ctx gl lts ts mx my =
      { ctx := ctx, lastTimestamp := ts, stagingWrites := [],
        drawArraysCalls := [], logs := [] } := by
  simp only [c_render]
  rw [if_pos (by rw [h]; rfl)]

/-- C10 witness: on a concrete context with no buffered events, the tick
returns the context unchanged with no observable effect. -/
theorem c10_empty_events_no_effect_witness :
    c_render ctxW glTimeout 0 1 3 4 =
      { ctx := ctxW, lastTimestamp := 1, stagingWrites := [],
        drawArraysCalls := [], logs := [] } :=
  c10_empty_events_no_effect ctxW glTimeout 0 1 3 4 rfl

end Shrub
